import Mathlib

/-!
Verification development for the notification-service repository.

The definitions below are a shallow embedding of the dispatch pipeline:

* `src/src/services/notificationService.ts` — `sendNotification`,
  `shouldSendNotification`, the in-app/SMS stubs,
  `processPendingNotifications`;
* `src/src/services/templateService.ts` — `compileTemplate` and the four
  default templates (template bodies are abstracted away; only the template
  catalog keys and the required-variable lists matter to control flow);
* `src/src/services/googleWorkspaceEmailService.ts` — `sendEmail` and
  `generateUnsubscribeToken`;
* `src/src/services/databaseService.ts` — `getPendingNotifications`
  (the SQL filter, ordering, and limit);
* `src/src/controllers/notificationController.ts` —
  `sendBulkNotifications` and `unsubscribe`.

Modelling conventions: wall-clock instants are `Nat` epoch milliseconds;
the `data` payload of a request is modelled as the list of variable names
that are present and non-null (template rendering only ever inspects
presence); a JavaScript exception is an `Except.error` carrying the
exception message; the external collaborators (database, OAuth token
refresh, SMTP transporter, message bus) are an explicit `Env` record of
possibly-failing oracles, so that one run of `sendNotification` is a pure
function of the environment and the request.
-/

/-- Closed enumeration of notification kinds, from `NotificationType` in
`src/src/types` (the file appended to templateService in the corpus). -/
inductive NotificationType where
  | work_item_created
  | work_item_updated
  | work_item_assigned
  | work_item_completed
  | approval_requested
  | approval_approved
  | approval_rejected
  | escalation_triggered
  | sla_breach
  | deadline_reminder
  | daily_digest
  | weekly_report
  | system_alert
  deriving DecidableEq, Repr

/-- Closed enumeration of delivery channels, from `NotificationChannel`. -/
inductive NotificationChannel where
  | email
  | in_app
  | sms
  | push
  | slack
  | teams
  | webhook
  deriving DecidableEq, Repr

/-- Ordered enumeration of priorities, from `NotificationPriority`. -/
inductive NotificationPriority where
  | low
  | medium
  | high
  | critical
  deriving DecidableEq, Repr

/-- Lifecycle statuses, from `NotificationStatus`. -/
inductive NotificationStatus where
  | pending
  | queued
  | sending
  | sent
  | delivered
  | failed
  | expired
  | cancelled
  deriving DecidableEq, Repr

/-- String spelling of a channel, as interpolated into routing keys. -/
def channelStr : NotificationChannel → String
  | .email => "email"
  | .in_app => "in_app"
  | .sms => "sms"
  | .push => "push"
  | .slack => "slack"
  | .teams => "teams"
  | .webhook => "webhook"

/-- String spelling of a status, as interpolated into routing keys. -/
def statusStr : NotificationStatus → String
  | .pending => "pending"
  | .queued => "queued"
  | .sending => "sending"
  | .sent => "sent"
  | .delivered => "delivered"
  | .failed => "failed"
  | .expired => "expired"
  | .cancelled => "cancelled"

/-- String spelling of a priority.  This is exactly the VARCHAR value the
database stores in the `priority` column of the `notifications` table. -/
def priorityVarchar : NotificationPriority → String
  | .low => "low"
  | .medium => "medium"
  | .high => "high"
  | .critical => "critical"

/-- One unit of intent to notify a recipient, from `NotificationRequest`.
`data` is the set of template variables present (non-null) in the payload. -/
structure NotificationRequest where
  id : Option String := none
  tenantId : String
  recipientId : String
  ntype : NotificationType
  channel : NotificationChannel
  priority : NotificationPriority
  templateId : String
  data : List String := []
  scheduledAt : Option Nat := none
  expiresAt : Option Nat := none
  deriving DecidableEq, Repr

/-- Outcome of one dispatch attempt, from `NotificationResponse`.
Optional fields are `none` exactly when the TypeScript field is absent. -/
structure NotificationResponse where
  id : String
  status : NotificationStatus
  sentAt : Option Nat := none
  deliveredAt : Option Nat := none
  failedAt : Option Nat := none
  error : Option String := none
  messageId : Option String := none
  trackingId : Option String := none
  deriving DecidableEq, Repr

/-- Per-notification-type preference entry, from the `notificationTypes`
map of `NotificationPreferences`. -/
structure TypePreference where
  enabled : Bool
  channels : List NotificationChannel
  immediateDelivery : Bool
  deriving DecidableEq, Repr

/-- Per-user delivery policy, from `NotificationPreferences` (the
working-hours block is read but never consulted by the dispatch path and
is omitted). `notificationTypes` is an association list standing for the
JSON object keyed by notification type. -/
structure NotificationPreferences where
  userId : String
  tenantId : String
  emailNotifications : Bool
  inAppNotifications : Bool
  smsNotifications : Bool
  pushNotifications : Bool
  digestFrequency : String
  notificationTypes : List (NotificationType × TypePreference)
  deriving DecidableEq, Repr

/-- Lookup of `preferences.notificationTypes[request.type]`. -/
def lookupTypePref (prefs : NotificationPreferences) (t : NotificationType) :
    Option TypePreference :=
  (prefs.notificationTypes.find? (fun p => p.fst = t)).map Prod.snd

/-- Embedding of `NotificationService.shouldSendNotification`
(notificationService.ts lines 233-258): per-type enabled check, per-type
allowed-channel check, then the global per-channel boolean with unknown
channels defaulting to send. -/
def shouldSendNotification (request : NotificationRequest)
    (preferences : NotificationPreferences) : Bool :=
  match lookupTypePref preferences request.ntype with
  | some typePrefs =>
    if !typePrefs.enabled then false
    else if !(typePrefs.channels.contains request.channel) then false
    else match request.channel with
      | .email => preferences.emailNotifications
      | .in_app => preferences.inAppNotifications
      | .sms => preferences.smsNotifications
      | .push => preferences.pushNotifications
      | _ => true
  | none =>
    match request.channel with
    | .email => preferences.emailNotifications
    | .in_app => preferences.inAppNotifications
    | .sms => preferences.smsNotifications
    | .push => preferences.pushNotifications
    | _ => true

/-- The complete preference filter as dispatch consults it: the guard at
notificationService.ts line 168 runs `shouldSendNotification` only when a
preferences record exists, so an absent record means send. -/
def shouldSend (request : NotificationRequest)
    (preferences : Option NotificationPreferences) : Bool :=
  match preferences with
  | none => true
  | some p => shouldSendNotification request p

/-- Global per-channel boolean of the specification rule 4: email, in_app,
sms and push map to their preference flags, any other channel sends. -/
def globalChannelBool (p : NotificationPreferences)
    (c : NotificationChannel) : Bool :=
  match c with
  | .email => p.emailNotifications
  | .in_app => p.inAppNotifications
  | .sms => p.smsNotifications
  | .push => p.pushNotifications
  | _ => true

/-- Modelled from the spec (section 4.1) solely for comparison with the
source-derived `shouldSend`: rule 1 absent preferences send; rule 2 a
per-type entry with enabled false suppresses; rule 3 a per-type entry
whose allowed-channels set excludes the channel suppresses; rule 4 the
global boolean for the channel, unknown channels defaulting to send. -/
def shouldSendSpec (request : NotificationRequest)
    (preferences : Option NotificationPreferences) : Bool :=
  match preferences with
  | none => true
  | some p =>
    let entry := lookupTypePref p request.ntype
    if (match entry with | some tp => !tp.enabled | none => false) then
      false
    else if (match entry with
             | some tp => !(tp.channels.contains request.channel)
             | none => false) then
      false
    else
      globalChannelBool p request.channel

/-- C5: the source preference filter computes exactly the four-rule,
first-match-wins algorithm of the specification: absent preferences send;
a disabled per-type entry suppresses; a per-type entry excluding the
channel suppresses; otherwise the global per-channel boolean decides,
with unknown channels defaulting to send. -/
theorem shouldSend_matches_spec (request : NotificationRequest)
    (preferences : Option NotificationPreferences) :
    shouldSend request preferences = shouldSendSpec request preferences := by
  cases preferences with
  | none => rfl
  | some p =>
    unfold shouldSend shouldSendSpec shouldSendNotification
    cases h : lookupTypePref p request.ntype with
    | none => simp [h, globalChannelBool]
    | some tp =>
      cases htp : tp.enabled with
      | false => simp [h, htp]
      | true => simp [h, htp, globalChannelBool]

/-- Required-variable lists of the four default templates registered by
`TemplateService.initializeDefaultTemplates` (templateService.ts lines
78-161); only variables with `required: true` are listed, since only those
participate in `validateTemplateData`. -/
def defaultTemplates : List (String × List String) :=
  [("work_item_assigned",
     ["assigneeName", "workItemTitle", "workItemType", "priority",
      "workItemUrl", "organizationName"]),
   ("approval_requested",
     ["approverName", "requestedBy", "workItemTitle", "workItemType",
      "approvalType", "approvalDeadline", "approvalUrl",
      "organizationName"]),
   ("escalation_triggered",
     ["escalatedToName", "workItemTitle", "originalAssignee",
      "escalationReason", "slaBreachDuration", "escalationLevel",
      "workItemUrl", "organizationName"]),
   ("daily_digest",
     ["recipientName", "totalWorkItems", "completedToday", "overdueItems",
      "criticalItems", "dashboardUrl", "organizationName"])]

/-- Comma-joined list of names, as `missingVariables.join(', ')`. -/
def joinComma : List String → String
  | [] => ""
  | [v] => v
  | v :: rest => v ++ ", " ++ joinComma rest

/-- Embedding of `TemplateService.compileTemplate` (templateService.ts
lines 163-233) at the granularity the dispatch pipeline observes: unknown
template ids raise, missing required variables raise, and otherwise
rendering succeeds (the rendered subject/body strings are irrelevant to
every claim and are abstracted to `Unit`). -/
def compileTemplate (templateId : String) (data : List String) :
    Except String Unit :=
  match (defaultTemplates.find? (fun t => t.fst = templateId)).map Prod.snd with
  | none => .error ("Template not found: " ++ templateId)
  | some requiredVars =>
    let missingVariables := requiredVars.filter (fun v => !(data.contains v))
    if missingVariables.isEmpty then .ok ()
    else .error ("Missing required template variables: "
                  ++ joinComma missingVariables)

/-- External collaborators of one dispatch, as possibly-failing oracles.
An `Except.error` value models the corresponding TypeScript call throwing
(or, for `sendMail`, its promise rejecting) with that message. -/
structure Env where
  /-- `databaseService.saveNotification`: the assigned row id, or a throw. -/
  save : Except String String
  /-- `databaseService.getNotificationPreferences`: the stored record if
  any, or a throw. -/
  getPreferences : Except String (Option NotificationPreferences)
  /-- `databaseService.updateNotificationStatus`, as a function of its two
  arguments. -/
  updateStatus : String → NotificationResponse → Except String Unit
  /-- `messageQueueService.publishNotificationEvent`, as a function of the
  routing key; the source logs a publish failure and rethrows it. -/
  publish : String → Except String Unit
  /-- Whether `this.googleEmailService` is non-null in NotificationService. -/
  emailConfigured : Bool
  /-- Outcome of `ensureValidToken` inside the email service. -/
  token : Except String Unit
  /-- Whether `this.transporter` is non-null inside the email service. -/
  transporterInit : Bool
  /-- `transporter.sendMail`: the transport message id, or a rejection. -/
  sendMail : Except String String
  /-- The wall clock (`new Date()` / `Date.now()`), epoch milliseconds. -/
  now : Nat

/-- The failed `NotificationResponse` built by the catch arm of
`GoogleWorkspaceEmailService.sendEmail` (googleWorkspaceEmailService.ts
lines 162-178). -/
def emailFailureResponse (request : NotificationRequest) (msg : String)
    (now : Nat) : NotificationResponse :=
  { id := request.id.getD "unknown"
    status := .failed
    failedAt := some now
    error := some msg }

/-- Embedding of `GoogleWorkspaceEmailService.sendEmail`
(googleWorkspaceEmailService.ts lines 90-179).  The routine never throws:
a token-refresh failure, a missing transporter, or a `sendMail` rejection
each produce a failed response; success produces a sent response whose
messageId and trackingId are the transport message id. -/
def googleSendEmail (env : Env) (request : NotificationRequest) :
    NotificationResponse :=
  match env.token with
  | .error msg => emailFailureResponse request msg env.now
  | .ok () =>
    if !env.transporterInit then
      emailFailureResponse request "Email transporter not initialized" env.now
    else
      match env.sendMail with
      | .error msg => emailFailureResponse request msg env.now
      | .ok messageId =>
        { id := request.id.getD messageId
          status := .sent
          sentAt := some env.now
          messageId := some messageId
          trackingId := some messageId }

/-- The response of the in-app stub
(`NotificationService.sendInAppNotification`, lines 275-288) and of the
SMS stub (`sendSMSNotification`, lines 290-302): both mark the request
sent with no transport correlation identifiers. -/
def stubResponse (request : NotificationRequest) (now : Nat) :
    NotificationResponse :=
  { id := request.id.getD "unknown"
    status := .sent
    sentAt := some now }

/-- Result of the channel switch of `sendNotification` (lines 184-199):
the response if the selected channel routine returned one, the thrown
message otherwise, paired with the number of transport invocations that
took place (the email transport counts only once `sendEmail` is actually
entered; the stubs count as their deterministic send). -/
def channelDispatch (env : Env) (request : NotificationRequest) :
    Except String NotificationResponse × Nat :=
  match request.channel with
  | .email =>
    if !env.emailConfigured then
      (.error "Google Workspace email service not configured", 0)
    else
      match compileTemplate request.templateId request.data with
      | .error msg => (.error msg, 0)
      | .ok () => (.ok (googleSendEmail env request), 1)
  | .in_app => (.ok (stubResponse request env.now), 1)
  | .sms => (.ok (stubResponse request env.now), 1)
  | c => (.error ("Unsupported notification channel: " ++ channelStr c), 0)

/-- Observables of one `sendNotification` run: the value returned to the
caller (or, if the catch arm itself threw while persisting, the escaping
exception), the transport invocation count, the routing keys handed to
`publishNotificationEvent`, and the successfully persisted status
updates in order. -/
structure DispatchResult where
  result : Except String NotificationResponse
  transportCalls : Nat
  publishes : List String
  persisted : List (String × NotificationResponse)
  deriving Repr

/-- The catch arm of `sendNotification` (lines 211-230): build a failed
response carrying the exception message, persist it when the request has
an id (this nested update may itself throw and escape), and return it. -/
def dispatchCatch (env : Env) (request : NotificationRequest) (msg : String)
    (transportCalls : Nat) (publishes : List String)
    (persisted : List (String × NotificationResponse)) : DispatchResult :=
  let errorResponse : NotificationResponse :=
    { id := request.id.getD "unknown"
      status := .failed
      failedAt := some env.now
      error := some msg }
  match request.id with
  | none =>
    { result := .ok errorResponse, transportCalls, publishes, persisted }
  | some notificationId =>
    match env.updateStatus notificationId errorResponse with
    | .error msg2 =>
      { result := .error msg2, transportCalls, publishes, persisted }
    | .ok () =>
      { result := .ok errorResponse, transportCalls, publishes,
        persisted := persisted ++ [(notificationId, errorResponse)] }

/-- Embedding of `NotificationService.sendNotification`
(notificationService.ts lines 155-231): persist the request (mutating
`request.id`), consult preferences and possibly cancel, run the channel
switch, persist the outcome, publish `notification.<channel>.<status>`,
and funnel every throw into the catch arm. -/
def sendNotification (env : Env) (request : NotificationRequest) :
    DispatchResult :=
  match env.save with
  | .error msg => dispatchCatch env request msg 0 [] []
  | .ok notificationId =>
    let request := { request with id := some notificationId }
    match env.getPreferences with
    | .error msg => dispatchCatch env request msg 0 [] []
    | .ok preferences =>
      if (match preferences with
          | some p => !shouldSendNotification request p
          | none => false) then
        let response : NotificationResponse :=
          { id := notificationId, status := .cancelled }
        match env.updateStatus notificationId response with
        | .error msg => dispatchCatch env request msg 0 [] []
        | .ok () =>
          { result := .ok response, transportCalls := 0, publishes := [],
            persisted := [(notificationId, response)] }
      else
        match channelDispatch env request with
        | (.error msg, transportCalls) =>
          dispatchCatch env request msg transportCalls [] []
        | (.ok response, transportCalls) =>
          match env.updateStatus notificationId response with
          | .error msg =>
            dispatchCatch env request msg transportCalls [] []
          | .ok () =>
            let routingKey := "notification." ++ channelStr request.channel
              ++ "." ++ statusStr response.status
            match env.publish routingKey with
            | .error msg =>
              dispatchCatch env request msg transportCalls [routingKey]
                [(notificationId, response)]
            | .ok () =>
              { result := .ok response, transportCalls,
                publishes := [routingKey],
                persisted := [(notificationId, response)] }

/-- When every status update succeeds, the catch arm returns (never
rethrows) the failed response carrying the caught message. -/
theorem dispatchCatch_result (env : Env) (request : NotificationRequest)
    (msg : String) (tc : Nat) (pubs : List String)
    (pers : List (String × NotificationResponse))
    (hupd : ∀ i r, env.updateStatus i r = .ok ()) :
    (dispatchCatch env request msg tc pubs pers).result =
      .ok { id := request.id.getD "unknown", status := .failed,
            failedAt := some env.now, error := some msg } := by
  unfold dispatchCatch
  cases request.id <;> simp [hupd]

/-- The skip guard at line 168 is the negation of the preference filter. -/
theorem skip_guard_eq_not_shouldSend (request : NotificationRequest)
    (preferences : Option NotificationPreferences) :
    (match preferences with
     | some p => !shouldSendNotification request p
     | none => false) = !shouldSend request preferences := by
  cases preferences <;> rfl

/-- Run characterization, cancellation path: save and preference lookup
succeed, the filter suppresses, the status update succeeds. -/
theorem sendNotification_run_cancel (env : Env)
    (request : NotificationRequest) (notificationId : String)
    (p : NotificationPreferences)
    (hs : env.save = .ok notificationId)
    (hp : env.getPreferences = .ok (some p))
    (hfilter :
      shouldSendNotification { request with id := some notificationId } p
        = false)
    (hupd : ∀ i r, env.updateStatus i r = .ok ()) :
    sendNotification env request =
      { result := .ok { id := notificationId, status := .cancelled }
        transportCalls := 0
        publishes := []
        persisted :=
          [(notificationId, { id := notificationId, status := .cancelled })] } := by
  unfold sendNotification
  simp [hs, hp, hfilter, hupd]

/-- Run characterization, channel-switch throw path: the filter passes and
the selected channel routine throws; the catch arm converts the message. -/
theorem sendNotification_run_dispatch_error (env : Env)
    (request : NotificationRequest) (notificationId : String)
    (preferences : Option NotificationPreferences) (msg : String) (tc : Nat)
    (hs : env.save = .ok notificationId)
    (hp : env.getPreferences = .ok preferences)
    (hpass :
      shouldSend { request with id := some notificationId } preferences
        = true)
    (hcd : channelDispatch env { request with id := some notificationId }
        = (.error msg, tc))
    (hupd : ∀ i r, env.updateStatus i r = .ok ()) :
    sendNotification env request =
      { result := .ok { id := notificationId, status := .failed,
                        failedAt := some env.now, error := some msg }
        transportCalls := tc
        publishes := []
        persisted :=
          [(notificationId,
            { id := notificationId, status := .failed,
              failedAt := some env.now, error := some msg })] } := by
  cases preferences with
  | none =>
    unfold sendNotification
    simp [hs, hp, hcd, dispatchCatch, hupd]
  | some p =>
    simp only [shouldSend] at hpass
    unfold sendNotification
    simp [hs, hp, hpass, hcd, dispatchCatch, hupd]

/-- Run characterization, transport-outcome path with publish succeeding:
the channel routine returns a response, persistence succeeds, the event
publish succeeds, and that response is returned unchanged. -/
theorem sendNotification_run_ok (env : Env)
    (request : NotificationRequest) (notificationId : String)
    (preferences : Option NotificationPreferences)
    (response : NotificationResponse) (tc : Nat)
    (hs : env.save = .ok notificationId)
    (hp : env.getPreferences = .ok preferences)
    (hpass :
      shouldSend { request with id := some notificationId } preferences
        = true)
    (hcd : channelDispatch env { request with id := some notificationId }
        = (.ok response, tc))
    (hupd : ∀ i r, env.updateStatus i r = .ok ())
    (hpub : env.publish ("notification." ++ channelStr request.channel
        ++ "." ++ statusStr response.status) = .ok ()) :
    sendNotification env request =
      { result := .ok response
        transportCalls := tc
        publishes := ["notification." ++ channelStr request.channel
          ++ "." ++ statusStr response.status]
        persisted := [(notificationId, response)] } := by
  cases preferences with
  | none =>
    unfold sendNotification
    simp [hs, hp, hcd, hupd, hpub]
  | some p =>
    simp only [shouldSend] at hpass
    unfold sendNotification
    simp [hs, hp, hpass, hcd, hupd, hpub]

/-- Run characterization, publish-failure path: the channel routine
returns a response and persistence succeeds, but the event publish
throws; the catch arm then persists and returns a failed response built
from the publish error, replacing the transport outcome. -/
theorem sendNotification_run_publish_error (env : Env)
    (request : NotificationRequest) (notificationId : String)
    (preferences : Option NotificationPreferences)
    (response : NotificationResponse) (tc : Nat) (msg : String)
    (hs : env.save = .ok notificationId)
    (hp : env.getPreferences = .ok preferences)
    (hpass :
      shouldSend { request with id := some notificationId } preferences
        = true)
    (hcd : channelDispatch env { request with id := some notificationId }
        = (.ok response, tc))
    (hupd : ∀ i r, env.updateStatus i r = .ok ())
    (hpub : env.publish ("notification." ++ channelStr request.channel
        ++ "." ++ statusStr response.status) = .error msg) :
    sendNotification env request =
      { result := .ok { id := notificationId, status := .failed,
                        failedAt := some env.now, error := some msg }
        transportCalls := tc
        publishes := ["notification." ++ channelStr request.channel
          ++ "." ++ statusStr response.status]
        persisted := [(notificationId, response),
          (notificationId,
           { id := notificationId, status := .failed,
             failedAt := some env.now, error := some msg })] } := by
  cases preferences with
  | none =>
    unfold sendNotification
    simp [hs, hp, hcd, hupd, hpub, dispatchCatch]
  | some p =>
    simp only [shouldSend] at hpass
    unfold sendNotification
    simp [hs, hp, hpass, hcd, hupd, hpub, dispatchCatch]

/-- C1: dispatch never lets an exception from its pipeline steps escape:
whenever the status-update collaborator itself succeeds, `sendNotification`
returns a `NotificationResponse` for every environment and request; and
whenever the persisted request reaches the channel switch and the
rendering or transport step raises with a (non-empty) message, the
returned response has status failed and carries exactly that message as
its non-empty error. -/
theorem sendNotification_no_escape (env : Env) (request : NotificationRequest)
    (hupd : ∀ i r, env.updateStatus i r = .ok ()) :
    (∃ response, (sendNotification env request).result = .ok response) ∧
    (∀ notificationId preferences msg,
      env.save = .ok notificationId →
      env.getPreferences = .ok preferences →
      shouldSend { request with id := some notificationId } preferences
        = true →
      (channelDispatch env
          { request with id := some notificationId }).fst = .error msg →
      msg ≠ "" →
      ∃ response, (sendNotification env request).result = .ok response ∧
        response.status = .failed ∧ response.error = some msg ∧ msg ≠ "") := by
  constructor
  · unfold sendNotification
    cases hs : env.save with
    | error m => exact ⟨_, dispatchCatch_result env request m 0 [] [] hupd⟩
    | ok nid =>
      simp only []
      cases hp : env.getPreferences with
      | error m => exact ⟨_, dispatchCatch_result env _ m 0 [] [] hupd⟩
      | ok prefs =>
        simp only []
        cases hskip : (match prefs with
            | some p =>
              !shouldSendNotification { request with id := some nid } p
            | none => false) with
        | true =>
          simp only [hskip, if_true, hupd]
          exact ⟨_, rfl⟩
        | false =>
          simp only [hskip, Bool.false_eq_true, if_false]
          cases hcd : channelDispatch env { request with id := some nid } with
          | mk res tc =>
            cases res with
            | error m =>
              exact ⟨_, dispatchCatch_result env _ m tc [] [] hupd⟩
            | ok resp =>
              simp only [hupd]
              cases hpub : env.publish ("notification."
                  ++ channelStr { request with id := some nid }.channel
                  ++ "." ++ statusStr resp.status) with
              | error m =>
                exact ⟨_, dispatchCatch_result env _ m tc _ _ hupd⟩
              | ok u =>
                cases u
                exact ⟨_, rfl⟩
  · intro notificationId preferences msg hs hp hpass hcd hmsg
    have hfull : channelDispatch env { request with id := some notificationId }
        = (.error msg,
           (channelDispatch env { request with id := some notificationId }).snd) := by
      conv_lhs => rw [← Prod.mk.eta
        (p := channelDispatch env { request with id := some notificationId })]
      rw [hcd]
    refine ⟨{ id := notificationId, status := .failed,
              failedAt := some env.now, error := some msg }, ?_, rfl, rfl, hmsg⟩
    rw [sendNotification_run_dispatch_error env request notificationId
      preferences msg _ hs hp hpass hfull hupd]

/-- A fully healthy environment: persistence and bus succeed, no stored
preferences, the email transport is configured and delivers. -/
def okEnv : Env :=
  { save := .ok "n1"
    getPreferences := .ok none
    updateStatus := fun _ _ => .ok ()
    publish := fun _ => .ok ()
    emailConfigured := true
    token := .ok ()
    transporterInit := true
    sendMail := .ok "m1"
    now := 1000 }

/-- A valid email request for the `work_item_assigned` template with every
required variable supplied. -/
def baseRequest : NotificationRequest :=
  { tenantId := "tenant-1"
    recipientId := "user-1"
    ntype := .work_item_assigned
    channel := .email
    priority := .medium
    templateId := "work_item_assigned"
    data := ["assigneeName", "workItemTitle", "workItemType", "priority",
             "workItemUrl", "organizationName"] }

/-- Witness for C1 at a concrete input: with the email transport left
unconfigured the channel step throws, and dispatch returns a failed
response carrying that message. -/
theorem sendNotification_no_escape_witness :
    ∃ response,
      (sendNotification { okEnv with emailConfigured := false }
          baseRequest).result = .ok response ∧
      response.status = .failed ∧
      response.error = some "Google Workspace email service not configured" ∧
      "Google Workspace email service not configured" ≠ "" :=
  (sendNotification_no_escape { okEnv with emailConfigured := false }
      baseRequest (fun _ _ => rfl)).2
    "n1" none "Google Workspace email service not configured"
    rfl rfl rfl rfl (by decide)

/-- C2: when the preference filter suppresses a request, dispatch makes no
transport call, publishes no event, and both the returned response and the
one persisted update carry exactly the cancelled status. -/
theorem preference_filter_cancellation (env : Env)
    (request : NotificationRequest) (notificationId : String)
    (p : NotificationPreferences)
    (hs : env.save = .ok notificationId)
    (hp : env.getPreferences = .ok (some p))
    (hfilter : shouldSendNotification request p = false)
    (hupd : ∀ i r, env.updateStatus i r = .ok ()) :
    (sendNotification env request).result
      = .ok { id := notificationId, status := .cancelled } ∧
    (sendNotification env request).transportCalls = 0 ∧
    (sendNotification env request).publishes = [] ∧
    (sendNotification env request).persisted
      = [(notificationId, { id := notificationId, status := .cancelled })] := by
  rw [sendNotification_run_cancel env request notificationId p hs hp hfilter
    hupd]
  exact ⟨rfl, rfl, rfl, rfl⟩

/-- Stored preferences that disable the email channel globally. -/
def noEmailPrefs : NotificationPreferences :=
  { userId := "user-1"
    tenantId := "tenant-1"
    emailNotifications := false
    inAppNotifications := true
    smsNotifications := false
    pushNotifications := true
    digestFrequency := "daily"
    notificationTypes := [] }

/-- Witness for C2 at a concrete input: email globally disabled cancels an
email request with no transport call and no publish. -/
theorem preference_filter_cancellation_witness :
    (sendNotification { okEnv with getPreferences := .ok (some noEmailPrefs) }
        baseRequest).result = .ok { id := "n1", status := .cancelled } ∧
    (sendNotification { okEnv with getPreferences := .ok (some noEmailPrefs) }
        baseRequest).transportCalls = 0 ∧
    (sendNotification { okEnv with getPreferences := .ok (some noEmailPrefs) }
        baseRequest).publishes = [] ∧
    (sendNotification { okEnv with getPreferences := .ok (some noEmailPrefs) }
        baseRequest).persisted
      = [("n1", { id := "n1", status := .cancelled })] :=
  preference_filter_cancellation
    { okEnv with getPreferences := .ok (some noEmailPrefs) }
    baseRequest "n1" noEmailPrefs rfl rfl rfl (fun _ _ => rfl)

/-- An in-app request whose expiry (epoch millisecond 5) precedes the
dispatch-time clock of `okEnv` (epoch millisecond 1000). -/
def expiredInAppRequest : NotificationRequest :=
  { tenantId := "tenant-1"
    recipientId := "user-1"
    ntype := .work_item_assigned
    channel := .in_app
    priority := .medium
    templateId := "work_item_assigned"
    data := []
    scheduledAt := some 0
    expiresAt := some 5 }

/-- C3 evaluation: `sendNotification` performs no expiry check, so a
request whose expiresAt lies strictly in the past is still handed to its
channel transport and resolves to status sent, not failed. -/
theorem expired_request_still_dispatched :
    expiredInAppRequest.expiresAt = some 5 ∧
    okEnv.now = 1000 ∧ 5 < 1000 ∧
    (sendNotification okEnv expiredInAppRequest).result
      = .ok { id := "n1", status := .sent, sentAt := some 1000 } ∧
    (sendNotification okEnv expiredInAppRequest).transportCalls = 1 :=
  ⟨rfl, rfl, by omega, rfl, rfl⟩

/-- An ordinary in-app request, dispatched through the deterministic
in-app stub. -/
def inAppOkRequest : NotificationRequest :=
  { tenantId := "tenant-1"
    recipientId := "user-1"
    ntype := .work_item_assigned
    channel := .in_app
    priority := .medium
    templateId := "work_item_assigned"
    data := [] }

/-- Counterexample to C4 as stated: with the same transport outcome
(`sent`, from the in-app stub), a failing event publish changes the value
`sendNotification` returns from that outcome to a failed response carrying
the publish error, because `publishNotificationEvent` rethrows after
logging and the top-level catch converts the rethrow. -/
theorem publish_failure_changes_outcome :
    (sendNotification okEnv inAppOkRequest).result
      = .ok { id := "n1", status := .sent, sentAt := some 1000 } ∧
    (sendNotification { okEnv with publish := fun _ => .error "channel closed" }
        inAppOkRequest).result
      = .ok { id := "n1", status := .failed, failedAt := some 1000,
              error := some "channel closed" } ∧
    NotificationStatus.failed ≠ NotificationStatus.sent :=
  ⟨rfl, rfl, by decide⟩

/-- C4 amended: when the channel transport completes with an outcome, the
response returned by `sendNotification` is that outcome exactly when the
subsequent event publish succeeds; when the publish throws, the returned
response is instead a failed response carrying the publish error (the
transport outcome is still the one persisted first). -/
theorem publish_outcome_amended (env : Env)
    (request : NotificationRequest) (notificationId : String)
    (preferences : Option NotificationPreferences)
    (response : NotificationResponse) (tc : Nat)
    (hs : env.save = .ok notificationId)
    (hp : env.getPreferences = .ok preferences)
    (hpass :
      shouldSend { request with id := some notificationId } preferences
        = true)
    (hcd : channelDispatch env { request with id := some notificationId }
        = (.ok response, tc))
    (hupd : ∀ i r, env.updateStatus i r = .ok ()) :
    (env.publish ("notification." ++ channelStr request.channel
        ++ "." ++ statusStr response.status) = .ok () →
      (sendNotification env request).result = .ok response) ∧
    (∀ msg, env.publish ("notification." ++ channelStr request.channel
        ++ "." ++ statusStr response.status) = .error msg →
      (sendNotification env request).result
        = .ok { id := notificationId, status := .failed,
                failedAt := some env.now, error := some msg } ∧
      (sendNotification env request).persisted.head?
        = some (notificationId, response)) := by
  constructor
  · intro hpub
    rw [sendNotification_run_ok env request notificationId preferences
      response tc hs hp hpass hcd hupd hpub]
  · intro msg hpub
    rw [sendNotification_run_publish_error env request notificationId
      preferences response tc msg hs hp hpass hcd hupd hpub]
    exact ⟨rfl, rfl⟩

/-- Witness for the amended C4 at a concrete input: with a healthy bus the
in-app stub outcome is returned unchanged. -/
theorem publish_outcome_amended_witness :
    (sendNotification okEnv inAppOkRequest).result
      = .ok { id := "n1", status := .sent, sentAt := some 1000 } :=
  (publish_outcome_amended okEnv inAppOkRequest "n1" none
    { id := "n1", status := .sent, sentAt := some 1000 } 1
    rfl rfl rfl rfl (fun _ _ => rfl)).1 rfl

/-- A push-channel request (push is in the closed channel enumeration). -/
def pushRequest : NotificationRequest :=
  { tenantId := "tenant-1"
    recipientId := "user-1"
    ntype := .system_alert
    channel := .push
    priority := .high
    templateId := "work_item_assigned"
    data := [] }

/-- Counterexample to C8 as stated: a push request does not resolve
through a deterministic sent stub — the channel switch throws
"Unsupported notification channel: push" and dispatch resolves it to
status failed with no transport call. -/
theorem push_channel_counterexample :
    (sendNotification okEnv pushRequest).result
      = .ok { id := "n1", status := .failed, failedAt := some 1000,
              error := some "Unsupported notification channel: push" } ∧
    (sendNotification okEnv pushRequest).transportCalls = 0 ∧
    NotificationStatus.failed ≠ NotificationStatus.sent :=
  ⟨rfl, rfl, by decide⟩

/-- C8 amended: of the non-email channels, exactly in_app and sms resolve
through the deterministic sent stub; push, slack, teams and webhook fall
into the default arm of the channel switch and resolve to a failed
response with an unsupported-channel error and no transport call.  Only
the email arm reaches the real transport. -/
theorem channel_stub_amended (env : Env)
    (request : NotificationRequest) (notificationId : String)
    (preferences : Option NotificationPreferences)
    (hs : env.save = .ok notificationId)
    (hp : env.getPreferences = .ok preferences)
    (hpass :
      shouldSend { request with id := some notificationId } preferences
        = true)
    (hupd : ∀ i r, env.updateStatus i r = .ok ())
    (hpub : ∀ k, env.publish k = .ok ()) :
    ((request.channel = .in_app ∨ request.channel = .sms) →
      (sendNotification env request).result
        = .ok { id := notificationId, status := .sent,
                sentAt := some env.now } ∧
      (sendNotification env request).transportCalls = 1) ∧
    ((request.channel = .push ∨ request.channel = .slack ∨
      request.channel = .teams ∨ request.channel = .webhook) →
      (sendNotification env request).result
        = .ok { id := notificationId, status := .failed,
                failedAt := some env.now,
                error := some ("Unsupported notification channel: "
                  ++ channelStr request.channel) } ∧
      (sendNotification env request).transportCalls = 0) := by
  constructor
  · intro h
    have hcd : channelDispatch env { request with id := some notificationId }
        = (.ok (stubResponse { request with id := some notificationId }
            env.now), 1) := by
      rcases h with h | h <;> simp [channelDispatch, h]
    rw [sendNotification_run_ok env request notificationId preferences _ 1
      hs hp hpass hcd hupd (hpub _)]
    exact ⟨rfl, rfl⟩
  · intro h
    have hcd : channelDispatch env { request with id := some notificationId }
        = (.error ("Unsupported notification channel: "
            ++ channelStr request.channel), 0) := by
      rcases h with h | h | h | h <;> simp [channelDispatch, channelStr, h]
    rw [sendNotification_run_dispatch_error env request notificationId
      preferences _ 0 hs hp hpass hcd hupd]
    exact ⟨rfl, rfl⟩

/-- Witness for the amended C8 at concrete inputs: the in-app stub marks
sent with one transport call, and a teams request fails unsupported with
none. -/
theorem channel_stub_amended_witness :
    ((sendNotification okEnv inAppOkRequest).result
        = .ok { id := "n1", status := .sent, sentAt := some 1000 } ∧
      (sendNotification okEnv inAppOkRequest).transportCalls = 1) ∧
    ((sendNotification okEnv { pushRequest with channel := .teams }).result
        = .ok { id := "n1", status := .failed, failedAt := some 1000,
                error := some "Unsupported notification channel: teams" } ∧
      (sendNotification okEnv
          { pushRequest with channel := .teams }).transportCalls = 0) :=
  ⟨(channel_stub_amended okEnv inAppOkRequest "n1" none rfl rfl rfl
      (fun _ _ => rfl) (fun _ => rfl)).1 (Or.inl rfl),
   (channel_stub_amended okEnv { pushRequest with channel := .teams } "n1"
      none rfl rfl rfl (fun _ _ => rfl) (fun _ => rfl)).2
     (Or.inr (Or.inr (Or.inl rfl)))⟩

/-- The response well-formedness of spec section 3, with the
messageId/trackingId clause weakened from iff to only-if: at most one of
the terminal timestamps is set, the error field is present exactly when
the status is failed, and the correlation identifiers appear only on
responses whose status is sent or later. -/
def responseInvariant (r : NotificationResponse) : Prop :=
  ((if r.sentAt.isSome then 1 else 0) + (if r.deliveredAt.isSome then 1 else 0)
      + (if r.failedAt.isSome then 1 else 0) ≤ 1) ∧
  (r.error.isSome ↔ r.status = .failed) ∧
  (r.messageId.isSome → (r.status = .sent ∨ r.status = .delivered)) ∧
  (r.trackingId.isSome → (r.status = .sent ∨ r.status = .delivered))

/-- Counterexample to C9 as stated: the in-app stub produces a response
with status sent and no messageId, so messageId presence is not
equivalent to the status being sent or later. -/
theorem stub_messageId_counterexample :
    (sendNotification okEnv inAppOkRequest).result
      = .ok { id := "n1", status := .sent, sentAt := some 1000 } ∧
    ({ id := "n1", status := .sent, sentAt := some 1000 }
        : NotificationResponse).messageId = none ∧
    ¬ (({ id := "n1", status := .sent, sentAt := some 1000 }
          : NotificationResponse).messageId.isSome ↔
        (({ id := "n1", status := .sent, sentAt := some 1000 }
            : NotificationResponse).status = .sent ∨
         ({ id := "n1", status := .sent, sentAt := some 1000 }
            : NotificationResponse).status = .delivered)) :=
  ⟨rfl, rfl, by decide⟩

/-- The failed response shape shared by the email catch arm and the
dispatch catch arm satisfies the invariant. -/
theorem responseInvariant_failed (i : String) (m : String) (t : Nat) :
    responseInvariant
      { id := i, status := .failed, failedAt := some t, error := some m } := by
  simp [responseInvariant]

/-- The stub response satisfies the invariant. -/
theorem responseInvariant_stub (request : NotificationRequest) (t : Nat) :
    responseInvariant (stubResponse request t) := by
  simp [responseInvariant, stubResponse]

/-- The cancellation response satisfies the invariant. -/
theorem responseInvariant_cancel (i : String) :
    responseInvariant { id := i, status := .cancelled } := by
  simp [responseInvariant]

/-- Every response of the email transport satisfies the invariant. -/
theorem responseInvariant_google (env : Env)
    (request : NotificationRequest) :
    responseInvariant (googleSendEmail env request) := by
  unfold googleSendEmail
  cases env.token with
  | error m => simp [emailFailureResponse, responseInvariant]
  | ok u =>
    cases u
    by_cases ht : env.transporterInit
    · simp only [ht, Bool.not_true, Bool.false_eq_true, if_false]
      cases env.sendMail with
      | error m => simp [emailFailureResponse, responseInvariant]
      | ok mid => simp [responseInvariant]
    · simp [ht, emailFailureResponse, responseInvariant]

/-- Every response the channel switch hands back satisfies the invariant. -/
theorem channelDispatch_invariant (env : Env)
    (request : NotificationRequest) (response : NotificationResponse)
    (tc : Nat)
    (h : channelDispatch env request = (.ok response, tc)) :
    responseInvariant response := by
  unfold channelDispatch at h
  cases hc : request.channel <;> simp only [hc] at h
  case email =>
    by_cases he : env.emailConfigured
    · simp only [he, Bool.not_true, Bool.false_eq_true, if_false] at h
      cases hct : compileTemplate request.templateId request.data with
      | error m => simp [hct] at h
      | ok u =>
        cases u
        simp only [hct, Prod.mk.injEq, Except.ok.injEq] at h
        rw [← h.1]
        exact responseInvariant_google env request
    · simp [he] at h
  case in_app =>
    simp only [Prod.mk.injEq, Except.ok.injEq] at h
    rw [← h.1]
    exact responseInvariant_stub request env.now
  case sms =>
    simp only [Prod.mk.injEq, Except.ok.injEq] at h
    rw [← h.1]
    exact responseInvariant_stub request env.now
  case push => simp at h
  case slack => simp at h
  case teams => simp at h
  case webhook => simp at h

/-- The catch arm preserves the invariant for the returned response and
for every persisted entry, given it held for the entries persisted before
the throw. -/
theorem dispatchCatch_invariant (env : Env)
    (request : NotificationRequest) (msg : String) (tc : Nat)
    (pubs : List String) (pers : List (String × NotificationResponse))
    (hpers : ∀ e ∈ pers, responseInvariant e.snd) :
    (∀ r, (dispatchCatch env request msg tc pubs pers).result = .ok r →
      responseInvariant r) ∧
    (∀ e ∈ (dispatchCatch env request msg tc pubs pers).persisted,
      responseInvariant e.snd) := by
  unfold dispatchCatch
  cases request.id with
  | none =>
    refine ⟨?_, hpers⟩
    intro r h
    simp only [Except.ok.injEq] at h
    rw [← h]
    exact responseInvariant_failed _ msg env.now
  | some nid =>
    constructor
    · intro r h
      dsimp only at h
      split at h
      · simp at h
      · simp only [Except.ok.injEq] at h
        rw [← h]
        exact responseInvariant_failed _ msg env.now
    · intro e he
      dsimp only at he
      split at he
      · exact hpers e he
      · rw [List.mem_append] at he
        rcases he with he | he
        · exact hpers e he
        · simp only [List.mem_singleton] at he
          rw [he]
          exact responseInvariant_failed _ msg env.now

/-- C9 amended: every response the dispatch pipeline returns to its
caller, and every response it persists, has at most one terminal
timestamp set, carries an error exactly when its status is failed, and
carries messageId/trackingId only when its status is sent or later (the
iff of the original claim fails: the in-app/SMS stubs return sent
responses without correlation identifiers). -/
theorem response_invariant_amended (env : Env)
    (request : NotificationRequest) :
    (∀ response, (sendNotification env request).result = .ok response →
      responseInvariant response) ∧
    (∀ e ∈ (sendNotification env request).persisted,
      responseInvariant e.snd) := by
  unfold sendNotification
  cases hs : env.save with
  | error m => exact dispatchCatch_invariant env request m 0 [] [] (by simp)
  | ok nid =>
    dsimp only
    cases hp : env.getPreferences with
    | error m => exact dispatchCatch_invariant env _ m 0 [] [] (by simp)
    | ok prefs =>
      dsimp only
      cases hskip : (match prefs with
          | some p =>
            !shouldSendNotification { request with id := some nid } p
          | none => false) with
      | true =>
        simp only [hskip, if_true]
        cases hu : env.updateStatus nid
            { id := nid, status := .cancelled } with
        | error m =>
          simp only [hu]
          exact dispatchCatch_invariant env _ m 0 [] [] (by simp)
        | ok u =>
          cases u
          simp only [hu]
          constructor
          · intro r h
            simp only [Except.ok.injEq] at h
            rw [← h]
            exact responseInvariant_cancel nid
          · intro e he
            simp only [List.mem_singleton] at he
            rw [he]
            exact responseInvariant_cancel nid
      | false =>
        simp only [hskip, Bool.false_eq_true, if_false]
        cases hcd : channelDispatch env { request with id := some nid } with
        | mk res tc =>
          cases res with
          | error m =>
            dsimp only
            exact dispatchCatch_invariant env _ m tc [] [] (by simp)
          | ok resp =>
            have hinv := channelDispatch_invariant env _ resp tc hcd
            dsimp only
            cases hu : env.updateStatus nid resp with
            | error m =>
              simp only [hu]
              exact dispatchCatch_invariant env _ m tc [] [] (by simp)
            | ok u =>
              cases u
              simp only [hu]
              cases hpub : env.publish ("notification."
                  ++ channelStr request.channel
                  ++ "." ++ statusStr resp.status) with
              | error m =>
                simp only [hpub]
                refine dispatchCatch_invariant env _ m tc _ [(nid, resp)] ?_
                intro e he
                simp only [List.mem_singleton] at he
                rw [he]
                exact hinv
              | ok u2 =>
                cases u2
                simp only [hpub]
                constructor
                · intro r h
                  simp only [Except.ok.injEq] at h
                  rw [← h]
                  exact hinv
                · intro e he
                  simp only [List.mem_singleton] at he
                  rw [he]
                  exact hinv

/-- Witness for the amended C9 at a concrete input: the returned email
transport success response satisfies the weakened invariant. -/
theorem response_invariant_amended_witness :
    (sendNotification okEnv baseRequest).result
      = .ok { id := "n1", status := .sent, sentAt := some 1000,
              messageId := some "m1", trackingId := some "m1" } ∧
    responseInvariant
      { id := "n1", status := .sent, sentAt := some 1000,
        messageId := some "m1", trackingId := some "m1" } :=
  ⟨rfl,
   (response_invariant_amended okEnv baseRequest).1
     { id := "n1", status := .sent, sentAt := some 1000,
       messageId := some "m1", trackingId := some "m1" } rfl⟩

/-- One row of the `notifications` table, at the granularity the sweep
query touches. -/
structure StoredNotification where
  id : String
  status : NotificationStatus
  priority : NotificationPriority
  scheduledAt : Nat
  expiresAt : Option Nat
  deriving DecidableEq, Repr

/-- Code points of a string, for explicit lexicographic comparison. -/
def strBytes (s : String) : List Nat := s.toList.map Char.toNat

/-- Lexicographic strict comparison of byte sequences: how the database
collates two ASCII VARCHAR values. -/
def bytesLt : List Nat → List Nat → Bool
  | [], [] => false
  | [], _ :: _ => true
  | _ :: _, [] => false
  | a :: as, b :: bs =>
    if a < b then true else if b < a then false else bytesLt as bs

/-- Row ordering of the sweep query, `ORDER BY priority DESC,
scheduled_at ASC` (databaseService.ts line 205).  The `priority` column is
a VARCHAR, so the DESC key is the stored string value of the priority
under the collation order, not its severity. -/
def sweepRowLE (a b : StoredNotification) : Bool :=
  bytesLt (strBytes (priorityVarchar b.priority))
    (strBytes (priorityVarchar a.priority)) ||
  ((strBytes (priorityVarchar a.priority)
      == strBytes (priorityVarchar b.priority)) &&
    decide (a.scheduledAt ≤ b.scheduledAt))

/-- Insertion into a sorted list, modelling the SQL sort order. -/
def sweepInsert (x : StoredNotification) :
    List StoredNotification → List StoredNotification
  | [] => [x]
  | y :: ys => if sweepRowLE x y then x :: y :: ys else y :: sweepInsert x ys

/-- Sorting by the sweep ordering, modelling the SQL ORDER BY. -/
def sweepSort : List StoredNotification → List StoredNotification
  | [] => []
  | x :: xs => sweepInsert x (sweepSort xs)

/-- Embedding of `DatabaseService.getPendingNotifications`
(databaseService.ts lines 194-227): keep rows whose status is pending,
whose scheduled time has passed, and whose expiry is unset or in the
future; order by priority VARCHAR descending then scheduled time
ascending; return the first `limit` rows. -/
def getPendingNotifications (db : List StoredNotification) (now : Nat)
    (limit : Nat) : List StoredNotification :=
  (sweepSort (db.filter (fun r =>
    (r.status == .pending) && decide (r.scheduledAt ≤ now) &&
    (match r.expiresAt with
     | none => true
     | some e => decide (now < e))))).take limit

/-- Embedding of the pull step of
`NotificationService.processPendingNotifications` (notificationService.ts
line 306): the page handed to the batch loop is the sweep query with
limit 50. -/
def processPendingPull (db : List StoredNotification) (now : Nat) :
    List StoredNotification :=
  getPendingNotifications db now 50

/-- Three due pending rows with equal scheduled times and priorities low,
critical, medium. -/
def sweepRowLow : StoredNotification :=
  { id := "a", status := .pending, priority := .low, scheduledAt := 100,
    expiresAt := none }

def sweepRowCritical : StoredNotification :=
  { id := "b", status := .pending, priority := .critical,
    scheduledAt := 100, expiresAt := none }

def sweepRowMedium : StoredNotification :=
  { id := "c", status := .pending, priority := .medium, scheduledAt := 100,
    expiresAt := none }

/-- C6 evaluation: because the ORDER BY key is the priority VARCHAR, the
page handed to the batch controller for three equal-time pending rows of
priorities [low, critical, medium] is ordered [medium, low, critical]
(lexicographically descending strings), not the severity order
[critical, medium, low] the claim requires. -/
theorem sweeper_order_is_lexicographic :
    (processPendingPull [sweepRowLow, sweepRowCritical, sweepRowMedium]
        1000).map (fun r => r.priority)
      = [.medium, .low, .critical] ∧
    (processPendingPull [sweepRowLow, sweepRowCritical, sweepRowMedium]
        1000).map (fun r => r.priority)
      ≠ [.critical, .medium, .low] := by
  constructor
  · rfl
  · decide

/-- Run characterization, email happy path: the filter passes, the
template compiles, the token and transporter are healthy and the
transport delivers; the outcome is a sent response correlated by the
transport message id. -/
theorem sendNotification_email_ok (env : Env)
    (request : NotificationRequest) (notificationId : String)
    (preferences : Option NotificationPreferences) (mid : String)
    (hs : env.save = .ok notificationId)
    (hp : env.getPreferences = .ok preferences)
    (hpass :
      shouldSend { request with id := some notificationId } preferences
        = true)
    (hchan : request.channel = .email)
    (hconf : env.emailConfigured = true)
    (hct : compileTemplate request.templateId request.data = .ok ())
    (htok : env.token = .ok ())
    (htr : env.transporterInit = true)
    (hsm : env.sendMail = .ok mid)
    (hupd : ∀ i r, env.updateStatus i r = .ok ())
    (hpub : ∀ k, env.publish k = .ok ()) :
    (sendNotification env request).result
      = .ok { id := notificationId, status := .sent, sentAt := some env.now,
              messageId := some mid, trackingId := some mid } := by
  have hcd : channelDispatch env { request with id := some notificationId }
      = (.ok { id := notificationId, status := .sent,
               sentAt := some env.now, messageId := some mid,
               trackingId := some mid }, 1) := by
    simp [channelDispatch, hchan, hconf, hct, googleSendEmail, htok, htr,
      hsm]
  rw [sendNotification_run_ok env request notificationId preferences _ 1
    hs hp hpass hcd hupd (hpub _)]

/-- Run characterization, email rendering failure: an unknown template id
makes `compileTemplate` throw, and dispatch resolves the request to a
failed response carrying the template error, with no transport call. -/
theorem sendNotification_email_render_error (env : Env)
    (request : NotificationRequest) (notificationId : String)
    (preferences : Option NotificationPreferences)
    (hs : env.save = .ok notificationId)
    (hp : env.getPreferences = .ok preferences)
    (hpass :
      shouldSend { request with id := some notificationId } preferences
        = true)
    (hchan : request.channel = .email)
    (hconf : env.emailConfigured = true)
    (hfind : defaultTemplates.find? (fun t => t.fst = request.templateId)
        = none)
    (hupd : ∀ i r, env.updateStatus i r = .ok ()) :
    (sendNotification env request).result
      = .ok { id := notificationId, status := .failed,
              failedAt := some env.now,
              error := some ("Template not found: " ++ request.templateId) } ∧
    (sendNotification env request).transportCalls = 0 := by
  have hcd : channelDispatch env { request with id := some notificationId }
      = (.error ("Template not found: " ++ request.templateId), 0) := by
    simp [channelDispatch, hchan, hconf, compileTemplate, hfind]
  rw [sendNotification_run_dispatch_error env request notificationId
    preferences _ 0 hs hp hpass hcd hupd]
  exact ⟨rfl, rfl⟩

/-- One entry of the per-item result array built by
`NotificationController.sendBulkNotifications` (lines 98-112). -/
structure BulkItemResult where
  index : Nat
  success : Bool
  notification : Option NotificationResponse
  error : Option String
  deriving DecidableEq, Repr

/-- Embedding of `NotificationController.sendBulkNotifications`
(notificationController.ts lines 67-140) after field validation: each
request is dispatched independently, `Promise.allSettled` collects one
settlement per item in order, and each settlement is tagged with its
original index; a fulfilled dispatch yields success true with the
response, a rejected one success false with the rejection message. -/
def sendBulkNotifications (env : Env)
    (notifications : List NotificationRequest) : List BulkItemResult :=
  notifications.enum.map (fun e =>
    match (sendNotification env e.snd).result with
    | .ok response =>
      { index := e.fst, success := true, notification := some response,
        error := none }
    | .error msg =>
      { index := e.fst, success := false, notification := none,
        error := some msg })

/-- An email request whose template id is not in the catalog. -/
def badTemplateRequest : NotificationRequest :=
  { tenantId := "tenant-1"
    recipientId := "user-2"
    ntype := .work_item_assigned
    channel := .email
    priority := .medium
    templateId := "nonexistent_template"
    data := [] }

/-- Counterexample to C7 as stated: in a two-item bulk dispatch whose
first item fails rendering, no per-item result carries success false —
`sendNotification` captures the rendering error and fulfils with a failed
response, so both settlements are fulfilled with success true and the
failure is visible only in the notification status. -/
theorem bulk_success_flags_counterexample :
    (sendBulkNotifications okEnv [badTemplateRequest, baseRequest]).map
        (fun r => r.success) = [true, true] ∧
    List.countP (fun r => !r.success)
        (sendBulkNotifications okEnv [badTemplateRequest, baseRequest]) = 0 ∧
    (sendBulkNotifications okEnv [badTemplateRequest, baseRequest]).map
        (fun r => r.notification.map (fun n => n.status))
      = [some .failed, some .sent] :=
  ⟨rfl, rfl, rfl⟩

/-- C7 amended: for a bulk dispatch in which exactly item k has an unknown
template id and every other item renders and delivers, the controller
returns one result per request, correlated by original index, with every
success flag true (dispatch never rejects its promise); item k alone
carries a failed response with the rendering error while every other item
carries its sent response — one item failing neither aborts nor alters
the others. -/
theorem bulk_isolation_amended (env : Env)
    (notifications : List NotificationRequest) (notificationId : String)
    (mid : String) (k : Nat)
    (hk : k < notifications.length)
    (hs : env.save = .ok notificationId)
    (hp : env.getPreferences = .ok none)
    (hconf : env.emailConfigured = true)
    (htok : env.token = .ok ())
    (htr : env.transporterInit = true)
    (hsm : env.sendMail = .ok mid)
    (hupd : ∀ i r, env.updateStatus i r = .ok ())
    (hpub : ∀ x, env.publish x = .ok ())
    (hchan : ∀ r ∈ notifications, r.channel = .email)
    (hbad : defaultTemplates.find?
        (fun t => t.fst = (notifications[k]).templateId) = none)
    (hgood : ∀ i, (hi : i < notifications.length) → i ≠ k →
      compileTemplate (notifications[i]).templateId
        (notifications[i]).data = .ok ()) :
    (sendBulkNotifications env notifications).length
      = notifications.length ∧
    (∀ i, (hi : i < (sendBulkNotifications env notifications).length) →
      ((sendBulkNotifications env notifications)[i]).index = i ∧
      ((sendBulkNotifications env notifications)[i]).success = true ∧
      (i = k →
        ((sendBulkNotifications env notifications)[i]).notification
          = some { id := notificationId, status := .failed,
                   failedAt := some env.now,
                   error := some ("Template not found: "
                     ++ (notifications[k]).templateId) }) ∧
      (i ≠ k →
        ((sendBulkNotifications env notifications)[i]).notification
          = some { id := notificationId, status := .sent,
                   sentAt := some env.now, messageId := some mid,
                   trackingId := some mid })) := by
  have hlen : (sendBulkNotifications env notifications).length
      = notifications.length := by
    simp [sendBulkNotifications]
  refine ⟨hlen, ?_⟩
  intro i hi
  have hi' : i < notifications.length := hlen ▸ hi
  have hget : (sendBulkNotifications env notifications)[i] =
      (match (sendNotification env (notifications[i])).result with
       | .ok response =>
         { index := i, success := true, notification := some response,
           error := none }
       | .error msg =>
         { index := i, success := false, notification := none,
           error := some msg }) := by
    simp [sendBulkNotifications, List.getElem_map, List.getElem_enum]
  by_cases hik : i = k
  · subst hik
    have hrun := sendNotification_email_render_error env
      (notifications[i]) notificationId none hs hp rfl
      (hchan _ (List.getElem_mem hi')) hconf hbad hupd
    rw [hget, hrun.1]
    exact ⟨rfl, rfl, fun _ => rfl, fun hne => absurd rfl hne⟩
  · have hrun := sendNotification_email_ok env
      (notifications[i]) notificationId none mid hs hp rfl
      (hchan _ (List.getElem_mem hi')) hconf (hgood i hi' hik) htok htr
      hsm hupd hpub
    rw [hget, hrun]
    exact ⟨rfl, rfl, fun heq => absurd heq hik, fun _ => rfl⟩

/-- Witness for the amended C7 at a concrete input: two email requests,
the first with an unknown template; both results are success true, the
first failed, the second sent, indexed in order. -/
theorem bulk_isolation_amended_witness :
    (sendBulkNotifications okEnv [badTemplateRequest, baseRequest]).length
      = 2 ∧
    ((sendBulkNotifications okEnv
        [badTemplateRequest, baseRequest]).get ⟨0, by decide⟩).notification
      = some { id := "n1", status := .failed, failedAt := some 1000,
               error := some "Template not found: nonexistent_template" } ∧
    ((sendBulkNotifications okEnv
        [badTemplateRequest, baseRequest]).get ⟨1, by decide⟩).notification
      = some { id := "n1", status := .sent, sentAt := some 1000,
               messageId := some "m1", trackingId := some "m1" } := by
  have h := bulk_isolation_amended okEnv [badTemplateRequest, baseRequest]
    "n1" "m1" 0 (by decide) rfl rfl rfl rfl rfl rfl (fun _ _ => rfl)
    (fun _ => rfl)
    (by intro r hr
        simp only [List.mem_cons, List.not_mem_nil, or_false] at hr
        rcases hr with hr | hr <;> rw [hr] <;> rfl)
    rfl
    (by intro i hi hne
        have hi2 : i < 2 := by simpa using hi
        interval_cases i
        · exact absurd rfl hne
        · rfl)
  refine ⟨h.1, ?_, ?_⟩
  · exact ((h.2 0 (by rw [h.1]; decide)).2.2.1 rfl)
  · exact ((h.2 1 (by rw [h.1]; decide)).2.2.2 (by omega))

/-- Decimal digit bytes of a natural number, most significant first: the
byte sequence contributed by interpolating `Date.now()` into the token
template string. -/
def decRep (n : Nat) : List Nat :=
  if n < 10 then [48 + n]
  else decRep (n / 10) ++ [48 + n % 10]
decreasing_by omega

/-- A decimal representation is never empty. -/
theorem decRep_ne_nil (n : Nat) : decRep n ≠ [] := by
  rw [decRep]
  split <;> simp

/-- Every byte of a decimal representation is an ASCII digit. -/
theorem decRep_digits (n : Nat) : ∀ b ∈ decRep n, 48 ≤ b ∧ b ≤ 57 := by
  induction n using decRep.induct with
  | case1 n h =>
    intro b hb
    rw [decRep, if_pos h] at hb
    simp only [List.mem_singleton] at hb
    omega
  | case2 n h ih =>
    intro b hb
    rw [decRep, if_neg h] at hb
    rw [List.mem_append] at hb
    rcases hb with hb | hb
    · exact ih b hb
    · simp only [List.mem_singleton] at hb
      have : n % 10 < 10 := Nat.mod_lt n (by omega)
      omega

/-- The base64 alphabet, indexed by sextet value. -/
def b64Alphabet : List Char :=
  "ABCDEFGHIJKLMNOPQRSTUVWXYZabcdefghijklmnopqrstuvwxyz0123456789+/".toList

/-- Character of one sextet. -/
def b64char (n : Nat) : Char := b64Alphabet.getD n (Char.ofNat 65)

/-- Sextet of one character, if it belongs to the alphabet. -/
def b64val (c : Char) : Option Nat := b64Alphabet.indexOf? c

theorem b64val_b64char : ∀ n < 64, b64val (b64char n) = some n := by decide

theorem b64char_ne_pad : ∀ n < 64, b64char n ≠ '=' := by decide

theorem b64char_ascii : ∀ n < 64, (b64char n).toNat < 128 := by decide

/-- Standard base64 encoding of a byte sequence, as
`Buffer.from(s).toString('base64')` produces it: three bytes become four
alphabet characters, a trailing group of one or two bytes is padded with
`=`. -/
def b64encode : List Nat → List Char
  | [] => []
  | [a] => [b64char (a / 4), b64char (a % 4 * 16), '=', '=']
  | [a, b] => [b64char (a / 4), b64char (a % 4 * 16 + b / 16),
               b64char (b % 16 * 4), '=']
  | a :: b :: c :: rest =>
    b64char (a / 4) :: b64char (a % 4 * 16 + b / 16)
      :: b64char (b % 16 * 4 + c / 64) :: b64char (c % 64)
      :: b64encode rest

/-- Base64 decoding of a canonical encoding, as
`Buffer.from(s, 'base64')` reads the strings `b64encode` produces:
quantum of four characters at a time, padding only in the final quantum. -/
def b64decode : List Char → Option (List Nat)
  | [] => some []
  | c1 :: c2 :: c3 :: c4 :: rest =>
    match b64val c1, b64val c2 with
    | some s1, some s2 =>
      if c3 = '=' then
        if c4 = '=' ∧ rest = [] then some [s1 * 4 + s2 / 16] else none
      else
        match b64val c3 with
        | some s3 =>
          if c4 = '=' then
            if rest = [] then
              some [s1 * 4 + s2 / 16, s2 % 16 * 16 + s3 / 4]
            else none
          else
            match b64val c4 with
            | some s4 =>
              match b64decode rest with
              | some tail =>
                some ((s1 * 4 + s2 / 16) :: (s2 % 16 * 16 + s3 / 4)
                  :: (s3 % 4 * 64 + s4) :: tail)
              | none => none
            | none => none
        | none => none
    | _, _ => none
  | _ => none

/-- Decoding inverts encoding on byte sequences. -/
theorem b64decode_encode (bs : List Nat) (h : ∀ b ∈ bs, b < 256) :
    b64decode (b64encode bs) = some bs := by
  induction bs using b64encode.induct with
  | case1 => rfl
  | case2 a =>
    have ha : a < 256 := h a (by simp)
    simp only [b64encode, b64decode]
    rw [b64val_b64char _ (by omega), b64val_b64char _ (by omega)]
    dsimp only
    simp
    omega
  | case3 a b =>
    have ha : a < 256 := h a (by simp)
    have hb : b < 256 := h b (by simp)
    simp only [b64encode, b64decode]
    rw [b64val_b64char _ (by omega), b64val_b64char _ (by omega)]
    dsimp only
    rw [if_neg (b64char_ne_pad _ (by omega))]
    rw [b64val_b64char _ (by omega)]
    dsimp only
    simp
    omega
  | case4 a b c rest ih =>
    have ha : a < 256 := h a (by simp)
    have hb : b < 256 := h b (by simp)
    have hc : c < 256 := h c (by simp)
    have hrest : ∀ x ∈ rest, x < 256 := fun x hx => h x (by simp [hx])
    simp only [b64encode, b64decode]
    rw [b64val_b64char _ (by omega), b64val_b64char _ (by omega)]
    dsimp only
    rw [if_neg (b64char_ne_pad _ (by omega))]
    rw [b64val_b64char _ (by omega)]
    dsimp only
    rw [if_neg (b64char_ne_pad _ (by omega))]
    rw [b64val_b64char _ (by omega)]
    dsimp only
    rw [ih hrest]
    simp
    omega

/-- The characters `encodeURIComponent` leaves unescaped besides
alphanumerics (ECMA-262 unescaped set). -/
def uriUnreservedMarks : List Char :=
  ['-', '_', '.', '!', '~', '*', Char.ofNat 39, '(', ')']

/-- Whether `encodeURIComponent` leaves a character unescaped. -/
def isUnreservedURI (c : Char) : Bool :=
  c.isAlphanum || uriUnreservedMarks.contains c

/-- Uppercase hexadecimal digits, as percent-escapes are spelled. -/
def hexDigits : List Char := "0123456789ABCDEF".toList

/-- Hexadecimal digit of a value below 16. -/
def hexDigitChar (n : Nat) : Char := hexDigits.getD n '0'

/-- Value of a hexadecimal digit, either case, as `decodeURIComponent`
accepts them. -/
def hexVal (c : Char) : Option Nat :=
  match hexDigits.indexOf? c with
  | some i => some i
  | none => "0123456789abcdef".toList.indexOf? c

/-- Escape of one ASCII character under `encodeURIComponent`: kept when
unescaped, otherwise a percent escape of its (single) UTF-8 byte. -/
def uriEncodeChar (c : Char) : List Char :=
  if isUnreservedURI c then [c]
  else ['%', hexDigitChar (c.toNat / 16), hexDigitChar (c.toNat % 16)]

/-- `encodeURIComponent` over a sequence of ASCII characters. -/
def uriEncode (s : List Char) : List Char :=
  (s.map uriEncodeChar).flatten

/-- `decodeURIComponent` over ASCII input: a percent escape of two hex
digits becomes its byte, any other character is kept; a dangling or
non-hex escape is a URIError, modelled as `none`. -/
def uriDecode : List Char → Option (List Char)
  | [] => some []
  | c :: rest =>
    if c = '%' then
      match rest with
      | h1 :: h2 :: rest2 =>
        match hexVal h1, hexVal h2 with
        | some a, some b =>
          match uriDecode rest2 with
          | some tail => some (Char.ofNat (a * 16 + b) :: tail)
          | none => none
        | _, _ => none
      | _ => none
    else
      match uriDecode rest with
      | some tail => some (c :: tail)
      | none => none

theorem hexVal_hexDigitChar : ∀ n < 16, hexVal (hexDigitChar n) = some n := by
  decide

theorem unreserved_ne_percent (c : Char) (h : isUnreservedURI c = true) :
    ¬(c = '%') := by
  intro hc
  rw [hc] at h
  exact absurd h (by decide)

/-- Percent-decoding inverts percent-encoding on ASCII characters. -/
theorem uriDecode_encode (s : List Char) (h : ∀ c ∈ s, c.toNat < 128) :
    uriDecode (uriEncode s) = some s := by
  induction s with
  | nil => rfl
  | cons c rest ih =>
    have hc : c.toNat < 128 := h c (by simp)
    have hrest := ih (fun x hx => h x (by simp [hx]))
    by_cases hu : isUnreservedURI c
    · simp only [uriEncode, List.map_cons, List.flatten_cons] at hrest ⊢
      simp only [uriEncodeChar, if_pos hu, List.cons_append, List.nil_append]
      rw [uriDecode.eq_def]
      dsimp only
      rw [if_neg (unreserved_ne_percent c hu)]
      rw [hrest]
    · simp only [uriEncode, List.map_cons, List.flatten_cons] at hrest ⊢
      simp only [uriEncodeChar, if_neg hu, List.cons_append, List.nil_append]
      rw [uriDecode.eq_def]
      dsimp only
      rw [if_pos rfl]
      rw [hexVal_hexDigitChar _ (by omega), hexVal_hexDigitChar _ (by omega)]
      dsimp only
      rw [hrest]
      have e1 : c.toNat / 16 * 16 + c.toNat % 16 = c.toNat := by omega
      rw [e1, Char.ofNat_toNat]

/-- JavaScript `String.prototype.split` on a one-byte separator, over the
byte sequence: the (always non-empty) list of separator-free segments. -/
def splitOnByte (sep : Nat) : List Nat → List (List Nat)
  | [] => [[]]
  | b :: rest =>
    match splitOnByte sep rest with
    | [] => [[]]
    | seg :: segs =>
      if b = sep then [] :: seg :: segs else (b :: seg) :: segs

/-- A split never produces the empty list of segments. -/
theorem splitOnByte_ne_nil (sep : Nat) (l : List Nat) :
    splitOnByte sep l ≠ [] := by
  cases l with
  | nil => simp [splitOnByte]
  | cons b rest =>
    rw [splitOnByte]
    cases splitOnByte sep rest with
    | nil => simp
    | cons seg segs =>
      dsimp only
      split <;> simp

/-- Splitting a separator-free sequence yields that one segment. -/
theorem splitOnByte_no_sep (sep : Nat) (ys : List Nat)
    (h : ∀ b ∈ ys, ¬(b = sep)) : splitOnByte sep ys = [ys] := by
  induction ys with
  | nil => rfl
  | cons b rest ih =>
    rw [splitOnByte, ih (fun x hx => h x (by simp [hx]))]
    dsimp only
    rw [if_neg (h b (by simp))]

/-- Splitting around one separator whose prefix is separator-free puts
the prefix first. -/
theorem splitOnByte_append (sep : Nat) (xs ys : List Nat)
    (hxs : ∀ b ∈ xs, ¬(b = sep)) :
    splitOnByte sep (xs ++ sep :: ys) = xs :: splitOnByte sep ys := by
  induction xs with
  | nil =>
    rw [List.nil_append, splitOnByte]
    cases hsp : splitOnByte sep ys with
    | nil => exact absurd hsp (splitOnByte_ne_nil sep ys)
    | cons seg segs =>
      dsimp only
      rw [if_pos rfl]
  | cons x xs ih =>
    rw [List.cons_append, splitOnByte,
      ih (fun b hb => hxs b (by simp [hb]))]
    cases hsp : splitOnByte sep ys with
    | nil => exact absurd hsp (splitOnByte_ne_nil sep ys)
    | cons seg segs =>
      dsimp only
      rw [if_neg (hxs x (by simp))]

/-- Embedding of `GoogleWorkspaceEmailService.generateUnsubscribeToken`
(googleWorkspaceEmailService.ts lines 298-303):
`encodeURIComponent(Buffer.from(recipientId + ":" + Date.now())
.toString('base64'))`, over the UTF-8 bytes of the recipient id (the byte
58 is the colon) and the decimal digits of the clock. -/
def generateUnsubscribeToken (recipientId : List Nat) (nowMs : Nat) :
    List Char :=
  uriEncode (b64encode (recipientId ++ 58 :: decRep nowMs))

/-- Embedding of the token validation of
`NotificationController.unsubscribe` (notificationController.ts lines
303-343): reject a missing/empty token; URI-decode then base64-decode it;
split the decoded text on colons and destructure the first two segments
as userId and timestamp; reject if either is missing or empty; otherwise
accept that pair. -/
def unsubscribeDecision (token : List Char) :
    Option (List Nat × List Nat) :=
  if token.isEmpty then none
  else
    match uriDecode token with
    | none => none
    | some decoded =>
      match b64decode decoded with
      | none => none
      | some bytes =>
        let segments := splitOnByte 58 bytes
        let userId := segments.getD 0 []
        let timestamp := segments.getD 1 []
        if userId.isEmpty || timestamp.isEmpty then none
        else some (userId, timestamp)

/-- Base64 encodings are ASCII. -/
theorem b64encode_ascii (bs : List Nat) (h : ∀ b ∈ bs, b < 256) :
    ∀ ch ∈ b64encode bs, ch.toNat < 128 := by
  induction bs using b64encode.induct with
  | case1 => intro ch hch; simp [b64encode] at hch
  | case2 a =>
    have ha : a < 256 := h a (by simp)
    intro ch hch
    simp only [b64encode, List.mem_cons, List.not_mem_nil, or_false] at hch
    rcases hch with hch | hch | hch | hch <;> rw [hch]
    · exact b64char_ascii _ (by omega)
    · exact b64char_ascii _ (by omega)
    · decide
    · decide
  | case3 a b =>
    have ha : a < 256 := h a (by simp)
    have hb : b < 256 := h b (by simp)
    intro ch hch
    simp only [b64encode, List.mem_cons, List.not_mem_nil, or_false] at hch
    rcases hch with hch | hch | hch | hch <;> rw [hch]
    · exact b64char_ascii _ (by omega)
    · exact b64char_ascii _ (by omega)
    · exact b64char_ascii _ (by omega)
    · decide
  | case4 a b c rest ih =>
    have ha : a < 256 := h a (by simp)
    have hb : b < 256 := h b (by simp)
    have hc : c < 256 := h c (by simp)
    have hrest : ∀ x ∈ rest, x < 256 := fun x hx => h x (by simp [hx])
    intro ch hch
    simp only [b64encode, List.mem_cons] at hch
    rcases hch with hch | hch | hch | hch | hch
    · rw [hch]; exact b64char_ascii _ (by omega)
    · rw [hch]; exact b64char_ascii _ (by omega)
    · rw [hch]; exact b64char_ascii _ (by omega)
    · rw [hch]; exact b64char_ascii _ (by omega)
    · exact ih hrest ch hch

/-- A base64 encoding of a non-empty byte sequence is non-empty. -/
theorem b64encode_ne_nil (bs : List Nat) (h : bs ≠ []) :
    b64encode bs ≠ [] := by
  match bs with
  | [] => exact absurd rfl h
  | [a] => simp [b64encode]
  | [a, b] => simp [b64encode]
  | a :: b :: c :: rest => simp [b64encode]

/-- A percent-encoding of a non-empty character sequence is non-empty. -/
theorem uriEncode_ne_nil (s : List Char) (h : s ≠ []) : uriEncode s ≠ [] := by
  match s with
  | [] => exact absurd rfl h
  | c :: rest =>
    simp only [uriEncode, List.map_cons, List.flatten_cons]
    intro hx
    rcases List.append_eq_nil.mp hx with ⟨h1, h2⟩
    unfold uriEncodeChar at h1
    split at h1 <;> simp at h1

/-- C10 amended: for every non-empty recipient id containing no colon
byte, the generated unsubscribe token round-trips through the endpoint
decode: the endpoint accepts it, the decoded userId equals the recipient
id, and the decoded timestamp is the (non-empty) decimal clock reading.
The original claim also admitted the empty recipient id, which the
endpoint rejects. -/
theorem unsubscribe_token_roundtrip (recipientId : List Nat) (nowMs : Nat)
    (hne : recipientId ≠ [])
    (hb : ∀ b ∈ recipientId, b < 256)
    (hcol : ∀ b ∈ recipientId, ¬(b = 58)) :
    unsubscribeDecision (generateUnsubscribeToken recipientId nowMs)
      = some (recipientId, decRep nowMs) ∧ decRep nowMs ≠ [] := by
  refine ⟨?_, decRep_ne_nil nowMs⟩
  have hbs : ∀ b ∈ recipientId ++ 58 :: decRep nowMs, b < 256 := by
    intro b hbm
    rw [List.mem_append, List.mem_cons] at hbm
    rcases hbm with h1 | h1 | h1
    · exact hb b h1
    · omega
    · have := decRep_digits nowMs b h1
      omega
  have htok_ne : generateUnsubscribeToken recipientId nowMs ≠ [] := by
    unfold generateUnsubscribeToken
    exact uriEncode_ne_nil _ (b64encode_ne_nil _ (by simp))
  unfold unsubscribeDecision
  rw [if_neg (by simpa [List.isEmpty_iff] using htok_ne)]
  unfold generateUnsubscribeToken
  rw [uriDecode_encode _ (b64encode_ascii _ hbs)]
  dsimp only
  rw [b64decode_encode _ hbs]
  dsimp only
  rw [splitOnByte_append 58 recipientId (decRep nowMs) hcol]
  rw [splitOnByte_no_sep 58 (decRep nowMs)
    (fun b hbm => by have := decRep_digits nowMs b hbm; omega)]
  dsimp only [List.getD]
  rw [if_neg (by simp [List.isEmpty_iff, hne, decRep_ne_nil nowMs])]
  rfl

/-- Counterexample to C10 as stated: the empty recipient id contains no
colon, but its token decodes to an empty userId, which the endpoint
rejects as an invalid token rather than accepting. -/
theorem empty_recipient_token_rejected :
    unsubscribeDecision (generateUnsubscribeToken [] 5) = none := by
  have hd : decRep 5 = [53] := by rw [decRep]; norm_num
  rw [generateUnsubscribeToken, hd]
  decide

/-- Witness for the amended C10 at a concrete input: recipient byte 104
(the letter h) and clock 5 round-trip and are accepted. -/
theorem unsubscribe_token_roundtrip_witness :
    unsubscribeDecision (generateUnsubscribeToken [104] 5)
      = some ([104], [53]) ∧ ([53] : List Nat) ≠ [] := by
  have hd : decRep 5 = [53] := by rw [decRep]; norm_num
  have h := unsubscribe_token_roundtrip [104] 5 (by decide)
    (by intro b hbm; simp only [List.mem_singleton] at hbm; omega)
    (by intro b hbm; simp only [List.mem_singleton] at hbm; omega)
  exact ⟨by rw [h.1, hd], by decide⟩
